import Mathlib

/-!
Shallow embedding of the three CI helper scripts of this repository
(`extract_vcpkg_version.py`, `generate_port_files.py`,
`merge_vcpkg_config.py`) and proofs about them.

JSON files are modelled as parsed values (`Json`), JSON objects as
association lists in insertion order (Python dicts preserve insertion
order, and `json.load`/`json.dump` preserve it too).  Each script run is
modelled as a pure function from its inputs (environment variables as
`Option String`, files as `FileState`) to an exit code, the ordered list
of writes to the standard output and error streams, and the files it
wrote.  Text interpolated from exception objects (parse-error messages,
tracebacks) is represented by fixed stand-in strings, since no scripted
control flow depends on it.
-/

namespace TemplateLib

/-- JSON values as produced by `json.load`.  Objects keep key order. -/
inductive Json where
  | null : Json
  | bool : Bool → Json
  | num : Int → Json
  | str : String → Json
  | arr : List Json → Json
  | obj : List (String × Json) → Json

/-- Lookup of a key in a JSON object body, first occurrence wins
(Python dict keys are unique, so this is plain dict lookup). -/
def lookupKvs : List (String × Json) → String → Option Json
  | [], _ => none
  | (k0, v0) :: rest, k => if k0 = k then some v0 else lookupKvs rest k

/-- Python `d.get(k, default)`. -/
def getKvsD (kvs : List (String × Json)) (k : String) (d : Json) : Json :=
  (lookupKvs kvs k).getD d

/-- Python `d[k] = v`: replace the value in place if the key exists
(keeping its position), otherwise append the new key at the end. -/
def insertKvs : List (String × Json) → String → Json → List (String × Json)
  | [], k, v => [(k, v)]
  | (k0, v0) :: rest, k, v =>
    if k0 = k then (k0, v) :: rest else (k0, v0) :: insertKvs rest k v

/-- Python `list(d.keys())`. -/
def keysOf (kvs : List (String × Json)) : List String :=
  kvs.map Prod.fst

/-- First candidate key present in the object, in candidate order;
models the `for field in version_fields: if field in data: ...; break`
loop of the extractor. -/
def lookupFirst : List String → List (String × Json) → Option Json
  | [], _ => none
  | f :: rest, kvs =>
    match lookupKvs kvs f with
    | some v => some v
    | none => lookupFirst rest kvs

/-- Python truthiness of a value obtained from `json.load`. -/
def pyTruthy : Json → Bool
  | .null => false
  | .bool b => b
  | .num n => n ≠ 0
  | .str s => ¬ s.isEmpty
  | .arr xs => ¬ xs.isEmpty
  | .obj kvs => ¬ kvs.isEmpty

/-- Python `len` on a value obtained from `json.load`: `none` when the
value has no length (`TypeError`). -/
def pyLen : Json → Option Nat
  | .str s => some s.length
  | .arr xs => some xs.length
  | .obj kvs => some kvs.length
  | _ => none

/-- Single-quote character, as used by Python `repr` of strings. -/
def sq : String := String.singleton (Char.ofNat 39)

/-- Python `repr` of a string (escaping of special characters inside the
string is not modelled; no claim depends on it). -/
def pyQuote (s : String) : String := sq ++ s ++ sq

mutual

/-- Python `repr` of a value obtained from `json.load`, as interpolated
into f-strings for containers. -/
def pyRepr : Json → String
  | .null => "None"
  | .bool true => "True"
  | .bool false => "False"
  | .num n => toString n
  | .str s => pyQuote s
  | .arr xs => "[" ++ pyReprList xs ++ "]"
  | .obj kvs => "\x7b" ++ pyReprObj kvs ++ "\x7d"

/-- Comma-separated `repr` of list elements. -/
def pyReprList : List Json → String
  | [] => ""
  | [x] => pyRepr x
  | x :: y :: rest => pyRepr x ++ ", " ++ pyReprList (y :: rest)

/-- Comma-separated `repr` of dict items. -/
def pyReprObj : List (String × Json) → String
  | [] => ""
  | [(k, v)] => pyQuote k ++ ": " ++ pyRepr v
  | (k, v) :: kv :: rest => pyQuote k ++ ": " ++ pyRepr v ++ ", " ++ pyReprObj (kv :: rest)

end

/-- Python `str` of a value obtained from `json.load` (`str` on a string
is the string itself, on containers it equals `repr`). -/
def pyStr : Json → String
  | .str s => s
  | j => pyRepr j

/-- Python `repr` of a list of strings, as in `list(d.keys())`. -/
def pyListRepr (ks : List String) : String :=
  "[" ++ String.intercalate ", " (ks.map pyQuote) ++ "]"

/-- Indentation of `2 * lvl` spaces for `json.dumps(..., indent=2)`. -/
def pad (lvl : Nat) : String :=
  String.join (List.replicate lvl "  ")

mutual

/-- Python `json.dumps(j, indent=2)` at nesting level `lvl` (separators
default to comma and colon-space when an indent is given; escaping of
special characters inside strings is not modelled). -/
def dumpJson (lvl : Nat) : Json → String
  | .null => "null"
  | .bool true => "true"
  | .bool false => "false"
  | .num n => toString n
  | .str s => "\"" ++ s ++ "\""
  | .arr [] => "[]"
  | .arr (x :: xs) =>
    "[\n" ++ dumpArr lvl (x :: xs) ++ "\n" ++ pad lvl ++ "]"
  | .obj [] => "\x7b\x7d"
  | .obj (kv :: kvs) =>
    "\x7b\n" ++ dumpObj lvl (kv :: kvs) ++ "\n" ++ pad lvl ++ "\x7d"

/-- Array elements of `dumpJson`, one per line. -/
def dumpArr (lvl : Nat) : List Json → String
  | [] => ""
  | [x] => pad (lvl + 1) ++ dumpJson (lvl + 1) x
  | x :: y :: rest =>
    pad (lvl + 1) ++ dumpJson (lvl + 1) x ++ ",\n" ++ dumpArr lvl (y :: rest)

/-- Object items of `dumpJson`, one per line. -/
def dumpObj (lvl : Nat) : List (String × Json) → String
  | [] => ""
  | [(k, v)] => pad (lvl + 1) ++ "\"" ++ k ++ "\": " ++ dumpJson (lvl + 1) v
  | (k, v) :: kv :: rest =>
    pad (lvl + 1) ++ "\"" ++ k ++ "\": " ++ dumpJson (lvl + 1) v ++ ",\n" ++
      dumpObj lvl (kv :: rest)

end

/-- Formatting of an environment variable in an f-string: Python prints
`None` for an unset variable. -/
def fmtOpt : Option String → String
  | none => "None"
  | some s => s

/-- Python truthiness of `os.environ.get(...)`: `None` and the empty
string are falsy. -/
def truthyOS : Option String → Bool
  | none => false
  | some s => ¬ s.isEmpty

/-- State of a JSON file on disk: absent, present but not valid JSON, or
present and parsing to an object with the given key-value pairs (the
manifest and configuration files of this repository are JSON objects,
as the data model of the spec records). -/
inductive FileState where
  | absent : FileState
  | malformed : FileState
  | parsed : List (String × Json) → FileState

/-- Output stream of a write: standard output or standard error. -/
inductive Sink where
  | out : Sink
  | err : Sink
deriving DecidableEq

/-- One write to an output stream; `txt` is the exact text written,
including the trailing newline added by `print` when present. -/
structure Ev where
  sink : Sink
  txt : String
deriving DecidableEq

/-- Python `print(s)` to standard output. -/
def pOut (s : String) : Ev := ⟨Sink.out, s ++ "\n"⟩

/-- Python `print(s, file=sys.stderr)`. -/
def pErr (s : String) : Ev := ⟨Sink.err, s ++ "\n"⟩

/-- The `log_info` helper of the generator and merger scripts: a plain
`print`, hence standard output. -/
def logI (m : String) : Ev := pOut ("[INFO] " ++ m)

/-- The `log_error` helper of the generator and merger scripts: a plain
`print`, hence standard output. -/
def logE (m : String) : Ev := pOut ("[ERROR] " ++ m)

/-- Writes that went to standard output. -/
def outEvsOf (evs : List Ev) : List Ev :=
  evs.filter (fun e => match e.sink with | Sink.out => true | Sink.err => false)

/-- Writes that went to standard error. -/
def errEvsOf (evs : List Ev) : List Ev :=
  evs.filter (fun e => match e.sink with | Sink.err => true | Sink.out => false)

/-- Exact text that reached standard output, concatenated. -/
def outTextOf (evs : List Ev) : String :=
  String.join ((outEvsOf evs).map Ev.txt)

/-- Stand-in for the message of a `json.JSONDecodeError`; no scripted
control flow depends on its text. -/
def pyJsonErrMsg : String := "Expecting value: line 1 column 1 (char 0)"

/-- Stand-in for the text `traceback.print_exc()` writes to standard
error; no scripted control flow depends on it. -/
def tracebackEv : Ev := ⟨Sink.err, "Traceback (most recent call last):\n"⟩

/-- Result of a run of a script that only writes streams: exit code and
the ordered stream writes. -/
structure Run1 where
  code : Nat
  evs : List Ev
deriving DecidableEq

/-- The ordered list of version field names the extractor tries,
from `extract_vcpkg_version.py`. -/
def versionFields : List String := ["version", "version-string", "version-semver"]

/-- The whole `extract_vcpkg_version.py` script (its `__main__` is a bare
`sys.exit(main())`), as a function of the state of `vcpkg.json`. -/
def extractVersionMain (fs : FileState) : Run1 :=
  match fs with
  | .absent => ⟨1, [pErr "Error: vcpkg.json not found"]⟩
  | .malformed => ⟨1, [pErr ("Error reading vcpkg.json: " ++ pyJsonErrMsg)]⟩
  | .parsed kvs =>
    match lookupFirst versionFields kvs with
    | none => ⟨1, [pErr "Error: No version found in vcpkg.json"]⟩
    | some v =>
      if pyTruthy v then ⟨0, [⟨Sink.out, pyStr v⟩]⟩
      else ⟨1, [pErr "Error: No version found in vcpkg.json"]⟩

/-- The `get_vcpkg_name` helper of `generate_port_files.py`: the `name`
value of `source_extracted/vcpkg.json` when readable, plus its logs. -/
def getVcpkgName (src : FileState) : Option Json × List Ev :=
  match src with
  | .absent =>
    (none, [logE "FATAL: vcpkg.json not found at source_extracted/vcpkg.json",
            logE "vcpkg.json is required in the top of source tree"])
  | .malformed =>
    (none, [logE ("FATAL: JSON decode error reading source vcpkg.json: " ++ pyJsonErrMsg)])
  | .parsed kvs =>
    match lookupKvs kvs "name" with
    | none =>
      (none, [logE ("FATAL: " ++ sq ++ "name" ++ sq ++ " field is missing from source vcpkg.json"),
              logE ("vcpkg.json must contain a " ++ sq ++ "name" ++ sq ++ " field for package identification")])
    | some v => (some v, [])

/-- The generator script invoked with `--get-name`: prints the package
name (with a newline) for shell capture and exits 0, otherwise exits 1;
a falsy name (such as the empty string) also takes the failure exit. -/
def getNameScript (src : FileState) : Run1 :=
  match getVcpkgName src with
  | (some v, evs) =>
    if pyTruthy v then ⟨0, evs ++ [pOut (pyStr v)]⟩ else ⟨1, evs⟩
  | (none, evs) => ⟨1, evs⟩

/-- Extra line the `__main__` blocks of the generator (full mode) and of
the merger print when `main` returned nonzero. -/
def trailerEvs (code : Nat) : List Ev :=
  if code = 0 then []
  else [pOut ("[ERROR] Script failed with exit code " ++ toString code)]

/-- Python type name of a value obtained from `json.load`, as it appears
in exception messages. -/
def pyTypeName : Json → String
  | .null => "NoneType"
  | .bool _ => "bool"
  | .num _ => "int"
  | .str _ => "str"
  | .arr _ => "list"
  | .obj _ => "dict"

/-- Message of the `TypeError` raised by `None[:16]`. -/
def noneSubscriptMsg : String :=
  sq ++ "NoneType" ++ sq ++ " object is not subscriptable"

/-- Message of the `ValueError` raised by unpacking a split of `n` parts
into two names. -/
def unpackMsg (n : Nat) : String :=
  if n < 2 then "not enough values to unpack (expected 2, got " ++ toString n ++ ")"
  else "too many values to unpack (expected 2)"

/-- Message of the `TypeError` raised by iterating a non-iterable. -/
def notIterableMsg (j : Json) : String :=
  sq ++ pyTypeName j ++ sq ++ " object is not iterable"

/-- Events of the outermost exception handler of the generator `main`
(lines 201-206): two error logs, a header, and the traceback on the
error stream. -/
def crashEvsGen (msg ty : String) : List Ev :=
  [logE ("Unexpected error in main(): " ++ msg),
   logE ("Exception type: " ++ ty),
   logE "Full traceback:",
   tracebackEv]

/-- Error block of the generator when some environment input is unset or
empty (lines 67-71). -/
def missingEnvEvsGen (rn tv : Option String) (h : String) (gh : Option String) : List Ev :=
  [logE "Missing required environment variables",
   logE ("REPO_NAME: " ++ fmtOpt rn),
   logE ("TAG_VERSION: " ++ fmtOpt tv),
   logE ("HASH: " ++ (if h.isEmpty then "UNSET" else "SET")),
   logE ("GITHUB_REPOSITORY: " ++ fmtOpt gh)]

/-- Python `tag_version.lstrip(c)` for the single character `v`: removes
every leading occurrence of that character. -/
def pyLstripV (s : String) : String :=
  String.mk (s.toList.dropWhile (fun c => c = 'v'))

/-- Python `s.split(sep)` for a single-character separator, on the
character list: splits at every occurrence, keeping empty parts. -/
def pySplitCharList (sep : Char) : List Char → List String
  | [] => [""]
  | c :: rest =>
    match pySplitCharList sep rest with
    | [] => [""]
    | h :: t => if c = sep then "" :: h :: t else (String.singleton c ++ h) :: t

/-- Python `s.split(sep)` for a single-character separator. -/
def pySplitChar (sep : Char) (s : String) : List String :=
  pySplitCharList sep s.toList

/-- Python `s.startswith(p)` on character lists. -/
def chListStartsWith : List Char → List Char → Bool
  | _, [] => true
  | [], _ :: _ => false
  | c :: cs, p :: ps => c = p && chListStartsWith cs ps

/-- Python `s.startswith(p)`: case-sensitive exact-prefix test. -/
def pyStartsWith (s p : String) : Bool :=
  chListStartsWith s.toList p.toList

/-- Filter predicate of the dependency merge (line 120): a dependency is
dropped when it is a string and starts with `vcpkg-cmake`. -/
def depIsVcpkgCmake : Json → Bool
  | .str s => pyStartsWith s "vcpkg-cmake"
  | _ => false

/-- Python iteration over a value obtained from `json.load`: lists yield
their elements, strings their characters, dicts their keys; other values
raise `TypeError` (`none`). -/
def pyIter : Json → Option (List Json)
  | .arr xs => some xs
  | .str s => some (s.toList.map (fun c => Json.str (String.singleton c)))
  | .obj kvs => some (kvs.map (fun kv => Json.str kv.1))
  | _ => none

/-- The output manifest the generator builds (lines 107-121): name from
the source, version with leading `v` characters stripped, defaulted
description and homepage, and the bootstrap dependencies followed by the
filtered source dependencies. -/
def buildVcpkgData (nameV : Json) (tvs ghs : String) (kvs : List (String × Json))
    (userDeps : List Json) : Json :=
  Json.obj
    [("name", nameV),
     ("version", Json.str (pyLstripV tvs)),
     ("description", getKvsD kvs "description" (Json.str (pyStr nameV ++ " library"))),
     ("homepage", getKvsD kvs "homepage" (Json.str ("https://github.com/" ++ ghs))),
     ("dependencies", Json.arr
       (Json.str "vcpkg-cmake" :: Json.str "vcpkg-cmake-config" ::
         userDeps.filter (fun d => !depIsVcpkgCmake d)))]

/-- The `portfile.cmake` text rendered by the generator (lines 142-177),
with owner, repo, hash and package name substituted. -/
def portfileText (owner repo hashV pname : String) : String :=
  String.intercalate "\n"
    ["# Check for required authorization token for private repository",
     "if(NOT DEFINED ENV{AUTHORIZATION_TOKEN} OR \"$ENV{AUTHORIZATION_TOKEN}\" STREQUAL \"\")",
     "    message(FATAL_ERROR \"Error: AUTHORIZATION_TOKEN not found in environment variables. Set AUTHORIZATION_TOKEN for private repository access.\")",
     "endif()",
     "",
     "vcpkg_from_github(",
     "    OUT_SOURCE_PATH SOURCE_PATH",
     "    REPO " ++ owner ++ "/" ++ repo,
     "    REF \"v${VERSION}\"",
     "    SHA512 " ++ hashV,
     "    HEAD_REF main",
     "    AUTHORIZATION_TOKEN \"$ENV{AUTHORIZATION_TOKEN}\"",
     ")",
     "",
     "vcpkg_cmake_configure(",
     "    SOURCE_PATH \"${SOURCE_PATH}\"",
     "    OPTIONS",
     "        -DBUILD_TESTING=OFF",
     ")",
     "",
     "vcpkg_cmake_install()",
     "",
     "# Fix cmake config path",
     "vcpkg_cmake_config_fixup(",
     "    PACKAGE_NAME " ++ pname,
     "    CONFIG_PATH lib/cmake/" ++ pname,
     ")",
     "",
     "# Remove debug includes",
     "file(REMOVE_RECURSE \"${CURRENT_PACKAGES_DIR}/debug/include\")",
     "",
     "# Handle copyright - only if LICENSE file exists",
     "if(EXISTS \"${SOURCE_PATH}/LICENSE\")",
     "    vcpkg_install_copyright(FILE_LIST \"${SOURCE_PATH}/LICENSE\")",
     "endif()"] ++ "\n"

/-- Files the generator writes on success: the port directory path, the
`portfile.cmake` text, and the parsed value of the written
`vcpkg.json`. -/
structure GenFiles where
  portDir : String
  portfile : String
  manifest : Json

/-- Result of a full-generation run: exit code, ordered stream writes,
and the files written (`none` when the run failed before writing). -/
structure GenRun where
  code : Nat
  evs : List Ev
  writes : Option GenFiles

/-- Continuation of the generator `main` after the environment inputs
passed validation (lines 74-199): split of the repository identifier,
read of the source manifest, manifest build, and the two file writes. -/
def genAfterEnv (tvs h ghs : String) (src : FileState) (e1 : List Ev) : GenRun :=
  match pySplitChar '/' ghs with
  | [o, r] =>
    let e2 := e1 ++ [logI ("Owner: " ++ o ++ ", Repo: " ++ r),
                     logI "Looking for source vcpkg.json at: source_extracted/vcpkg.json"]
    match src with
    | .absent =>
      ⟨1, e2 ++ [logE "FATAL: vcpkg.json not found at source_extracted/vcpkg.json",
                 logE "vcpkg.json is required in the top of source tree for vcpkg package generation",
                 logE "Please ensure your project has a valid vcpkg.json manifest file"], none⟩
    | .malformed =>
      ⟨1, e2 ++ [logI "Reading REQUIRED vcpkg.json from source...",
                 logE ("FATAL: JSON decode error reading source vcpkg.json: " ++ pyJsonErrMsg),
                 logE "Source vcpkg.json contains invalid JSON syntax"], none⟩
    | .parsed kvs =>
      let e3 := e2 ++ [logI "Reading REQUIRED vcpkg.json from source...",
                       logI ("Source vcpkg.json keys: " ++ pyListRepr (keysOf kvs))]
      match lookupKvs kvs "name" with
      | none =>
        ⟨1, e3 ++ [logE ("FATAL: " ++ sq ++ "name" ++ sq ++ " field is missing from source vcpkg.json"),
                   logE ("vcpkg.json must contain a " ++ sq ++ "name" ++ sq ++ " field for package identification")], none⟩
      | some nameV =>
        let e4 := e3 ++ [logI ("Using vcpkg package name from source: " ++ pyStr nameV)]
        let userDeps := getKvsD kvs "dependencies" (Json.arr [])
        match pyIter userDeps with
        | none =>
          ⟨1, e4 ++ [logI ("Source dependencies: " ++ pyStr userDeps)] ++
              crashEvsGen (notIterableMsg userDeps) "TypeError", none⟩
        | some depList =>
          let vdata := buildVcpkgData nameV tvs ghs kvs depList
          let pname := pyStr nameV
          let pf := portfileText o r h pname
          let e5 := e4 ++
            [logI ("Source dependencies: " ++ pyStr userDeps),
             logI ("Final dependencies: " ++ pyStr (Json.arr
               (Json.str "vcpkg-cmake" :: Json.str "vcpkg-cmake-config" ::
                 depList.filter (fun d => !depIsVcpkgCmake d)))),
             logI "✅ Successfully processed REQUIRED vcpkg.json from source",
             logI ("Creating port directory: registry/ports/" ++ pname),
             logI "Generating portfile.cmake content...",
             logI ("Writing portfile.cmake to: registry/ports/" ++ pname ++ "/portfile.cmake"),
             logI ("✅ portfile.cmake written (" ++ toString pf.length ++ " characters)"),
             logI ("Writing vcpkg.json to: registry/ports/" ++ pname ++ "/vcpkg.json"),
             logI ("Final vcpkg.json data: " ++ dumpJson 0 vdata),
             logI "✅ vcpkg.json written",
             logI ("✅ Generated port files for " ++ pname ++ " v" ++ tvs),
             logI ("   - portfile.cmake (registry/ports/" ++ pname ++ "/portfile.cmake)"),
             logI ("   - vcpkg.json (registry/ports/" ++ pname ++ "/vcpkg.json)")]
          ⟨0, e5, some ⟨"registry/ports/" ++ pname, pf, vdata⟩⟩
  | parts => ⟨1, e1 ++ crashEvsGen (unpackMsg parts.length) "ValueError", none⟩

/-- The generator `main` in full-generation mode (lines 51-206): initial
logs, the `hash_value[:16]` debug log (which raises `TypeError` when
`HASH` is unset, reaching the outermost handler before the validation
block), the environment validation, then `genAfterEnv`. -/
def genMain (rn tv hv gh : Option String) (src : FileState) : GenRun :=
  let e0 := [logI "Starting port file generation...",
             logI ("Repository: " ++ fmtOpt gh),
             logI ("Package name: " ++ fmtOpt rn),
             logI ("Version: " ++ fmtOpt tv)]
  match hv with
  | none => ⟨1, e0 ++ crashEvsGen noneSubscriptMsg "TypeError", none⟩
  | some h =>
    let e1 := e0 ++ [logI ("Hash: " ++ (h.take 16) ++ "...")]
    match rn, tv, gh with
    | some rns, some tvs, some ghs =>
      if rns.isEmpty ∨ tvs.isEmpty ∨ h.isEmpty ∨ ghs.isEmpty then
        ⟨1, e1 ++ missingEnvEvsGen rn tv h gh, none⟩
      else
        genAfterEnv tvs h ghs src e1
    | _, _, _ => ⟨1, e1 ++ missingEnvEvsGen rn tv h gh, none⟩

/-- The whole generator script in full-generation mode: `main` plus the
failure line its `__main__` block prints on a nonzero exit code. -/
def genScript (rn tv hv gh : Option String) (src : FileState) : GenRun :=
  let r := genMain rn tv hv gh src
  ⟨r.code, r.evs ++ trailerEvs r.code, r.writes⟩

/-- Value of a key of the written output manifest of a generation run. -/
def jGet : Json → String → Option Json
  | .obj kvs, k => lookupKvs kvs k
  | _, _ => none

/-- Version field of the manifest written by a generation run. -/
def writesVersion (r : GenRun) : Option Json :=
  r.writes.bind (fun g => jGet g.manifest "version")

/-- Where the merger found its configuration, with the data the read
retained: from the `configuration` key of `vcpkg.json` (keeping the full
manifest for write-back) or from `vcpkg-configuration.json`.  This is
the `(config, config_type, manifest)` triple of `read_vcpkg_config`. -/
inductive CfgSrc where
  | embeddedIn : List (String × Json) → CfgSrc
  | separate : CfgSrc

/-- Files the merger reads and writes: `vcpkg.json` and
`vcpkg-configuration.json`. -/
structure MFS where
  vj : FileState
  cj : FileState

/-- Result of a merger run: exit code, ordered stream writes, and the
file states after the run. -/
structure MRun where
  code : Nat
  evs : List Ev
  fs : MFS

/-- The `NotFound` line of `read_vcpkg_config`, naming both paths. -/
def notFoundEv : Ev :=
  logE "No vcpkg configuration found (tried vcpkg.json and vcpkg-configuration.json)"

/-- Parse-failure line for the manifest candidate. -/
def vjParseFailEv : Ev :=
  logE ("Failed to parse vcpkg.json: " ++ pyJsonErrMsg)

/-- Parse-failure line for the separate-file candidate. -/
def cjParseFailEv : Ev :=
  logE ("Failed to parse vcpkg-configuration.json: " ++ pyJsonErrMsg)

/-- The `read_vcpkg_config` function of `merge_vcpkg_config.py` (lines
18-44): embedded configuration from `vcpkg.json` first, separate
`vcpkg-configuration.json` second, `none` with the `NotFound` log line
otherwise.  A parse failure on a candidate is logged and discovery
continues; the info line of the separate branch precedes its parse. -/
def readVcpkgConfig (fs : MFS) : List Ev × Option (Json × CfgSrc) :=
  let step1 : List Ev × Option (Json × CfgSrc) :=
    match fs.vj with
    | .parsed m =>
      match lookupKvs m "configuration" with
      | some c => ([logI "Using embedded configuration from vcpkg.json"],
                   some (c, CfgSrc.embeddedIn m))
      | none => ([], none)
    | .malformed => ([vjParseFailEv], none)
    | .absent => ([], none)
  match step1 with
  | (evs, some r) => (evs, some r)
  | (evs, none) =>
    match fs.cj with
    | .parsed c =>
      (evs ++ [logI "Using separate vcpkg-configuration.json"],
       some (Json.obj c, CfgSrc.separate))
    | .malformed =>
      (evs ++ [logI "Using separate vcpkg-configuration.json", cjParseFailEv, notFoundEv], none)
    | .absent => (evs ++ [notFoundEv], none)

/-- Condition of the embedded branch of `read_vcpkg_config`: the
manifest file parses and carries a `configuration` key. -/
def embeddedAvailable (fs : MFS) : Bool :=
  match fs.vj with
  | .parsed m => (lookupKvs m "configuration").isSome
  | _ => false

/-- Whether the separate configuration file exists and parses. -/
def sepParses (fs : MFS) : Bool :=
  match fs.cj with
  | .parsed _ => true
  | _ => false

/-- The registry entry the merger constructs (lines 75-80). -/
def mkRegistry (chs pns : String) : Json :=
  Json.obj
    [("kind", Json.str "git"),
     ("repository", Json.str "https://github.com/ridgetradinggroup/vcpkg-ridge"),
     ("baseline", Json.str chs),
     ("packages", Json.arr [Json.str pns])]

/-- The in-memory configuration transformation of the merger (lines
69-83): create the registries array when absent, then append the new
entry; `none` when the configuration or its registries value is of a
shape on which the Python code raises before writing. -/
def mergeConfig (cfg : Json) (chs pns : String) : Option Json :=
  match cfg with
  | .obj kvs =>
    match lookupKvs kvs "registries" with
    | none => some (Json.obj (insertKvs kvs "registries" (Json.arr [mkRegistry chs pns])))
    | some (Json.arr xs) =>
      some (Json.obj (insertKvs kvs "registries" (Json.arr (xs ++ [mkRegistry chs pns]))))
    | some _ => none
  | _ => none

/-- Message of the `AttributeError` raised by `.get` on a non-dict. -/
def noGetMsg (j : Json) : String :=
  sq ++ pyTypeName j ++ sq ++ " object has no attribute " ++ sq ++ "get" ++ sq

/-- Message of the `TypeError` raised by `len` on an unsized value. -/
def noLenMsg (j : Json) : String :=
  "object of type " ++ sq ++ pyTypeName j ++ sq ++ " has no len()"

/-- Message of the `AttributeError` raised by `.append` on a non-list. -/
def noAppendMsg (j : Json) : String :=
  sq ++ pyTypeName j ++ sq ++ " object has no attribute " ++ sq ++ "append" ++ sq

/-- Events of the outermost `except Exception` handler of the merger
`main` (lines 119-124). -/
def crashEvsMerger (msg ty : String) : List Ev :=
  [logE ("Unexpected error: " ++ msg),
   logE ("Exception type: " ++ ty),
   tracebackEv]

/-- Error block of the merger when an environment input is unset or
empty (lines 55-57). -/
def missingEnvEvsMerger (ch pn : Option String) : List Ev :=
  [logE "Missing required environment variables",
   logE ("COMMIT_HASH: " ++ fmtOpt ch),
   logE ("VCPKG_PACKAGE_NAME: " ++ fmtOpt pn)]

/-- Success line of the merger (line 99); the source file stores these
exact double-encoded characters. -/
def mergerOkLine : String :=
  "âœ… Successfully merged private registry into existing vcpkg configuration"

/-- Write-back of the merged configuration (lines 85-109): to the same
file and in the same shape as was read, followed by the count, success,
and verification log lines.  `kvs1` is the merged configuration object,
`n1` the length of its registries array. -/
def mergerWrite (src : CfgSrc) (kvs1 : List (String × Json)) (n1 : Nat)
    (evs : List Ev) (fs : MFS) : MRun :=
  match src with
  | .embeddedIn m =>
    ⟨0, evs ++ [logI "Writing updated configuration back to vcpkg.json (embedded)",
                logI ("Final config registries count: " ++ toString n1),
                logI mergerOkLine,
                logI ("Verification: config has " ++ toString n1 ++ " registries")],
     { fs with vj := FileState.parsed (insertKvs m "configuration" (Json.obj kvs1)) }⟩
  | .separate =>
    ⟨0, evs ++ [logI "Writing updated configuration to vcpkg-configuration.json (separate)",
                logI ("Final config registries count: " ++ toString n1),
                logI mergerOkLine,
                logI ("Verification: config has " ++ toString n1 ++ " registries")],
     { fs with cj := FileState.parsed kvs1 }⟩

/-- The merger `main` (lines 46-124): environment validation,
configuration discovery, registry append, write-back.  Configurations or
registries values of a shape on which the Python code raises
(`AttributeError`/`TypeError`) reach the outermost handler and exit 1
with no file written. -/
def mergerMain (ch pn : Option String) (fs : MFS) : MRun :=
  let e0 := [logI ("Merging registry with commit hash: " ++ fmtOpt ch),
             logI ("vcpkg package name: " ++ fmtOpt pn)]
  match ch, pn with
  | some chs, some pns =>
    if chs.isEmpty ∨ pns.isEmpty then ⟨1, e0 ++ missingEnvEvsMerger ch pn, fs⟩
    else
      match readVcpkgConfig fs with
      | (re, none) => ⟨1, e0 ++ re, fs⟩
      | (re, some (cfg, src)) =>
        match cfg with
        | .obj kvs =>
          match pyLen (getKvsD kvs "registries" (Json.arr [])) with
          | none =>
            ⟨1, e0 ++ re ++
                crashEvsMerger (noLenMsg (getKvsD kvs "registries" (Json.arr []))) "TypeError", fs⟩
          | some n =>
            let e1 := e0 ++ re ++
              [logI ("Loaded existing configuration with " ++ toString n ++ " registries"),
               logI ("Existing config keys: " ++ pyListRepr (keysOf kvs)),
               logI ("Existing registries count: " ++ toString n)]
            let entry := mkRegistry chs pns
            match lookupKvs kvs "registries" with
            | none =>
              mergerWrite src (insertKvs kvs "registries" (Json.arr [entry])) 1
                (e1 ++ [logI "Created new registries array",
                        logI ("Adding registry: " ++ dumpJson 0 entry)]) fs
            | some (Json.arr xs) =>
              mergerWrite src (insertKvs kvs "registries" (Json.arr (xs ++ [entry])))
                (xs.length + 1)
                (e1 ++ [logI ("Adding registry: " ++ dumpJson 0 entry)]) fs
            | some other =>
              ⟨1, e1 ++ [logI ("Adding registry: " ++ dumpJson 0 entry)] ++
                  crashEvsMerger (noAppendMsg other) "AttributeError", fs⟩
        | _ => ⟨1, e0 ++ re ++ crashEvsMerger (noGetMsg cfg) "AttributeError", fs⟩
  | _, _ => ⟨1, e0 ++ missingEnvEvsMerger ch pn, fs⟩

/-- The whole merger script: `main` plus the failure line its `__main__`
block prints on a nonzero exit code. -/
def mergerScript (ch pn : Option String) (fs : MFS) : MRun :=
  let r := mergerMain ch pn fs
  ⟨r.code, r.evs ++ trailerEvs r.code, r.fs⟩

/-- Configuration value stored in the file the given source points at:
under the `configuration` key of the manifest for the embedded shape,
the whole separate file otherwise. -/
def cfgInFS (fs : MFS) : CfgSrc → Option Json
  | .embeddedIn _ =>
    match fs.vj with
    | .parsed m => lookupKvs m "configuration"
    | _ => none
  | .separate =>
    match fs.cj with
    | .parsed c => some (Json.obj c)
    | _ => none

/-- File states after a successful merger write-back of the merged
configuration object `kvs1`, per shape of the read. -/
def mergedFS (fs : MFS) (src : CfgSrc) (kvs1 : List (String × Json)) : MFS :=
  match src with
  | .embeddedIn m =>
    { fs with vj := FileState.parsed (insertKvs m "configuration" (Json.obj kvs1)) }
  | .separate => { fs with cj := FileState.parsed kvs1 }

/-- Source a second merger run reads from, after a successful write of
the merged configuration object `kvs1`. -/
def srcAfter (src : CfgSrc) (kvs1 : List (String × Json)) : CfgSrc :=
  match src with
  | .embeddedIn m => CfgSrc.embeddedIn (insertKvs m "configuration" (Json.obj kvs1))
  | .separate => CfgSrc.separate

/-- Key of the manifest file `vcpkg.json`, when it parses. -/
def vjLookup (fs : MFS) (k : String) : Option Json :=
  match fs.vj with
  | .parsed m => lookupKvs m k
  | _ => none

/-- Claim C3 reference value, following the words of the spec: the tag
with one leading literal `v` stripped, stripped only if present and only
one occurrence. -/
def specStripOneV (s : String) : String :=
  if pyStartsWith s "v" then String.mk (s.toList.drop 1) else s

/-! Helper lemmas shared by the claim theorems. -/

theorem lookupKvs_insertKvs_self (kvs : List (String × Json)) (k : String) (v : Json) :
    lookupKvs (insertKvs kvs k v) k = some v := by
  induction kvs with
  | nil => simp [insertKvs, lookupKvs]
  | cons kv rest ih =>
    obtain ⟨k0, v0⟩ := kv
    by_cases h : k0 = k
    · simp [insertKvs, lookupKvs, h]
    · simp [insertKvs, lookupKvs, h, ih]

theorem lookupKvs_insertKvs_ne (kvs : List (String × Json)) (k k' : String) (v : Json)
    (h : k' ≠ k) : lookupKvs (insertKvs kvs k v) k' = lookupKvs kvs k' := by
  induction kvs with
  | nil => simp [insertKvs, lookupKvs, Ne.symm h]
  | cons kv rest ih =>
    obtain ⟨k0, v0⟩ := kv
    by_cases h0 : k0 = k
    · subst h0
      simp [insertKvs, lookupKvs, Ne.symm h]
    · simp [insertKvs, lookupKvs, h0, ih]

theorem insertKvs_insertKvs (kvs : List (String × Json)) (k : String) (v w : Json) :
    insertKvs (insertKvs kvs k v) k w = insertKvs kvs k w := by
  induction kvs with
  | nil => simp [insertKvs]
  | cons kv rest ih =>
    obtain ⟨k0, v0⟩ := kv
    by_cases h0 : k0 = k
    · simp [insertKvs, h0]
    · simp [insertKvs, h0, ih]

theorem mergerScript_spec (chs pns : String) (fs : MFS) (kvs : List (String × Json))
    (src : CfgSrc) (xs : List Json)
    (hch : chs.isEmpty = false) (hpn : pns.isEmpty = false)
    (hread : (readVcpkgConfig fs).2 = some (Json.obj kvs, src))
    (hreg : lookupKvs kvs "registries" = none ∧ xs = [] ∨
            lookupKvs kvs "registries" = some (Json.arr xs)) :
    (mergerScript (some chs) (some pns) fs).code = 0 ∧
    (mergerScript (some chs) (some pns) fs).fs =
      mergedFS fs src (insertKvs kvs "registries" (Json.arr (xs ++ [mkRegistry chs pns]))) := by
  obtain ⟨re, hre⟩ : ∃ re, readVcpkgConfig fs = (re, some (Json.obj kvs, src)) :=
    ⟨(readVcpkgConfig fs).1, by rw [← hread]⟩
  rcases hreg with ⟨hnone, hxs⟩ | harr
  · subst hxs
    cases src <;>
      simp [mergerScript, mergerMain, hre, hch, hpn, getKvsD, hnone, pyLen,
        mergerWrite, mergedFS]
  · cases src <;>
      simp [mergerScript, mergerMain, hre, hch, hpn, getKvsD, harr, pyLen,
        mergerWrite, mergedFS]

theorem readVcpkgConfig_merged (fs : MFS) (kvs kvs1 : List (String × Json)) (src : CfgSrc)
    (hread : (readVcpkgConfig fs).2 = some (Json.obj kvs, src)) :
    (readVcpkgConfig (mergedFS fs src kvs1)).2 = some (Json.obj kvs1, srcAfter src kvs1) := by
  obtain ⟨vj, cj⟩ := fs
  cases src with
  | embeddedIn m =>
    simp [mergedFS, readVcpkgConfig, srcAfter, lookupKvs_insertKvs_self]
  | separate =>
    cases vj with
    | absent => simp [mergedFS, readVcpkgConfig, srcAfter]
    | malformed => simp [mergedFS, readVcpkgConfig, srcAfter]
    | parsed m =>
      rcases hc : lookupKvs m "configuration" with _ | c
      · simp [mergedFS, readVcpkgConfig, hc, srcAfter]
      · exfalso
        simp [readVcpkgConfig, hc] at hread

/-! Claim theorems. -/

/-- C1: for every Registry Merger run on a configuration mapping (truthy
environment inputs, a discovered configuration object, registries absent
or an array), the run succeeds and the registries sequence of the
written configuration equals the prior sequence (empty when the key was
absent) with exactly one new entry `mkRegistry chs pns` appended at the
end; no prior entry is removed, reordered or rewritten, and a second run
with identical inputs appends a second copy of the same entry. -/
theorem c1_merge_appends_exactly_one_entry (chs pns : String) (fs : MFS)
    (kvs : List (String × Json)) (src : CfgSrc) (xs : List Json)
    (hch : chs.isEmpty = false) (hpn : pns.isEmpty = false)
    (hread : (readVcpkgConfig fs).2 = some (Json.obj kvs, src))
    (hreg : lookupKvs kvs "registries" = none ∧ xs = [] ∨
            lookupKvs kvs "registries" = some (Json.arr xs)) :
    (mergerScript (some chs) (some pns) fs).code = 0 ∧
    cfgInFS (mergerScript (some chs) (some pns) fs).fs src =
      some (Json.obj (insertKvs kvs "registries"
        (Json.arr (xs ++ [mkRegistry chs pns])))) ∧
    cfgInFS (mergerScript (some chs) (some pns)
        (mergerScript (some chs) (some pns) fs).fs).fs
        (srcAfter src (insertKvs kvs "registries" (Json.arr (xs ++ [mkRegistry chs pns])))) =
      some (Json.obj (insertKvs kvs "registries"
        (Json.arr (xs ++ [mkRegistry chs pns, mkRegistry chs pns])))) := by
  obtain ⟨hcode, hfs⟩ := mergerScript_spec chs pns fs kvs src xs hch hpn hread hreg
  have hread2 := readVcpkgConfig_merged fs kvs
    (insertKvs kvs "registries" (Json.arr (xs ++ [mkRegistry chs pns]))) src hread
  have hreg2 : lookupKvs (insertKvs kvs "registries" (Json.arr (xs ++ [mkRegistry chs pns])))
      "registries" = none ∧ xs ++ [mkRegistry chs pns] = [] ∨
      lookupKvs (insertKvs kvs "registries" (Json.arr (xs ++ [mkRegistry chs pns])))
      "registries" = some (Json.arr (xs ++ [mkRegistry chs pns])) :=
    Or.inr (lookupKvs_insertKvs_self kvs "registries" (Json.arr (xs ++ [mkRegistry chs pns])))
  obtain ⟨hcode2, hfs2⟩ := mergerScript_spec chs pns
    (mergedFS fs src (insertKvs kvs "registries" (Json.arr (xs ++ [mkRegistry chs pns]))))
    (insertKvs kvs "registries" (Json.arr (xs ++ [mkRegistry chs pns])))
    (srcAfter src (insertKvs kvs "registries" (Json.arr (xs ++ [mkRegistry chs pns]))))
    (xs ++ [mkRegistry chs pns]) hch hpn hread2 hreg2
  have hins : insertKvs (insertKvs kvs "registries" (Json.arr (xs ++ [mkRegistry chs pns])))
      "registries" (Json.arr ((xs ++ [mkRegistry chs pns]) ++ [mkRegistry chs pns])) =
      insertKvs kvs "registries" (Json.arr (xs ++ [mkRegistry chs pns, mkRegistry chs pns])) := by
    rw [insertKvs_insertKvs, List.append_assoc]
    rfl
  refine ⟨hcode, ?_, ?_⟩
  · rw [hfs]
    cases src <;> simp [mergedFS, cfgInFS, lookupKvs_insertKvs_self]
  · rw [hfs, hfs2, hins]
    cases src <;> simp [mergedFS, cfgInFS, srcAfter, lookupKvs_insertKvs_self]

/-- C10: on every successful Registry Merger run, the only key of the
configuration that changes is `registries` (every other key of the
written configuration reads back unchanged), and in embedded format
every key of the outer manifest other than `configuration` reads back
unchanged. -/
theorem c10_only_registries_key_changes (chs pns : String) (fs : MFS)
    (kvs : List (String × Json)) (src : CfgSrc) (xs : List Json)
    (hch : chs.isEmpty = false) (hpn : pns.isEmpty = false)
    (hread : (readVcpkgConfig fs).2 = some (Json.obj kvs, src))
    (hreg : lookupKvs kvs "registries" = none ∧ xs = [] ∨
            lookupKvs kvs "registries" = some (Json.arr xs)) :
    (∀ k, k ≠ "registries" →
      ((cfgInFS (mergerScript (some chs) (some pns) fs).fs src).bind
        (fun c => jGet c k)) = lookupKvs kvs k) ∧
    (∀ m, src = CfgSrc.embeddedIn m → ∀ k, k ≠ "configuration" →
      vjLookup (mergerScript (some chs) (some pns) fs).fs k = lookupKvs m k) := by
  obtain ⟨hcode, hfs⟩ := mergerScript_spec chs pns fs kvs src xs hch hpn hread hreg
  constructor
  · intro k hk
    rw [hfs]
    cases src <;>
      simp [mergedFS, cfgInFS, jGet, lookupKvs_insertKvs_self, lookupKvs_insertKvs_ne _ _ _ _ hk]
  · intro m hm k hk
    subst hm
    rw [hfs]
    simp [mergedFS, vjLookup, lookupKvs_insertKvs_ne _ _ _ _ hk]

/-- C8: the write-back of a successful merger run touches only the file
that was read: in embedded format `vcpkg.json` is overwritten with the
mutated configuration re-embedded under the `configuration` key of the
retained manifest while `vcpkg-configuration.json` is left untouched,
and symmetrically in separate format only `vcpkg-configuration.json` is
overwritten. -/
theorem c8_writeback_targets_only_read_file (chs pns : String) (fs : MFS)
    (kvs : List (String × Json)) (src : CfgSrc) (xs : List Json)
    (hch : chs.isEmpty = false) (hpn : pns.isEmpty = false)
    (hread : (readVcpkgConfig fs).2 = some (Json.obj kvs, src))
    (hreg : lookupKvs kvs "registries" = none ∧ xs = [] ∨
            lookupKvs kvs "registries" = some (Json.arr xs)) :
    (∀ m, src = CfgSrc.embeddedIn m →
      (mergerScript (some chs) (some pns) fs).fs.cj = fs.cj ∧
      (mergerScript (some chs) (some pns) fs).fs.vj =
        FileState.parsed (insertKvs m "configuration"
          (Json.obj (insertKvs kvs "registries" (Json.arr (xs ++ [mkRegistry chs pns])))))) ∧
    (src = CfgSrc.separate →
      (mergerScript (some chs) (some pns) fs).fs.vj = fs.vj ∧
      (mergerScript (some chs) (some pns) fs).fs.cj =
        FileState.parsed (insertKvs kvs "registries" (Json.arr (xs ++ [mkRegistry chs pns])))) := by
  obtain ⟨hcode, hfs⟩ := mergerScript_spec chs pns fs kvs src xs hch hpn hread hreg
  constructor
  · intro m hm
    subst hm
    rw [hfs]
    exact ⟨rfl, rfl⟩
  · intro hm
    subst hm
    rw [hfs]
    exact ⟨rfl, rfl⟩

/-- C2: configuration discovery tries the embedded candidate first (a
parsing `vcpkg.json` with a `configuration` key wins, retaining the
manifest), else a parsing `vcpkg-configuration.json` is used as the
separate format, else the read yields nothing, the `NotFound` line
naming both paths is logged, and the merger run (with truthy environment
inputs) exits 1; a parse failure on the first candidate is logged
without aborting discovery of the second. -/
theorem c2_discovery_priority_and_notfound (fs : MFS) :
    (∀ m c, fs.vj = FileState.parsed m → lookupKvs m "configuration" = some c →
      (readVcpkgConfig fs).2 = some (c, CfgSrc.embeddedIn m)) ∧
    (embeddedAvailable fs = false → ∀ ckvs, fs.cj = FileState.parsed ckvs →
      (readVcpkgConfig fs).2 = some (Json.obj ckvs, CfgSrc.separate)) ∧
    (embeddedAvailable fs = false → sepParses fs = false →
      (readVcpkgConfig fs).2 = none ∧ notFoundEv ∈ (readVcpkgConfig fs).1 ∧
      (∀ chs pns : String, chs.isEmpty = false → pns.isEmpty = false →
        (mergerScript (some chs) (some pns) fs).code = 1 ∧
        notFoundEv ∈ (mergerScript (some chs) (some pns) fs).evs)) ∧
    (fs.vj = FileState.malformed → vjParseFailEv ∈ (readVcpkgConfig fs).1) := by
  obtain ⟨vj, cj⟩ := fs
  refine ⟨?_, ?_, ?_, ?_⟩
  · intro m c hm hc
    cases hm
    simp [readVcpkgConfig, hc]
  · intro hemb ckvs hcj
    cases hcj
    cases vj with
    | absent => simp [readVcpkgConfig]
    | malformed => simp [readVcpkgConfig]
    | parsed m =>
      rcases hc : lookupKvs m "configuration" with _ | c
      · simp [readVcpkgConfig, hc]
      · simp [embeddedAvailable, hc] at hemb
  · intro hemb hsep
    cases cj with
    | parsed ckvs => simp [sepParses] at hsep
    | absent =>
      cases vj with
      | absent =>
        refine ⟨rfl, by simp [readVcpkgConfig, notFoundEv], ?_⟩
        intro chs pns hch hpn
        constructor
        · simp [mergerScript, mergerMain, readVcpkgConfig, hch, hpn]
        · simp [mergerScript, mergerMain, readVcpkgConfig, hch, hpn, trailerEvs]
      | malformed =>
        refine ⟨rfl, by simp [readVcpkgConfig, notFoundEv], ?_⟩
        intro chs pns hch hpn
        constructor
        · simp [mergerScript, mergerMain, readVcpkgConfig, hch, hpn]
        · simp [mergerScript, mergerMain, readVcpkgConfig, hch, hpn, trailerEvs]
      | parsed m =>
        rcases hc : lookupKvs m "configuration" with _ | c
        · refine ⟨by simp [readVcpkgConfig, hc], by simp [readVcpkgConfig, hc, notFoundEv], ?_⟩
          intro chs pns hch hpn
          constructor
          · simp [mergerScript, mergerMain, readVcpkgConfig, hc, hch, hpn]
          · simp [mergerScript, mergerMain, readVcpkgConfig, hc, hch, hpn, trailerEvs]
        · simp [embeddedAvailable, hc] at hemb
    | malformed =>
      cases vj with
      | absent =>
        refine ⟨rfl, by simp [readVcpkgConfig, notFoundEv], ?_⟩
        intro chs pns hch hpn
        constructor
        · simp [mergerScript, mergerMain, readVcpkgConfig, hch, hpn]
        · simp [mergerScript, mergerMain, readVcpkgConfig, hch, hpn, trailerEvs]
      | malformed =>
        refine ⟨rfl, by simp [readVcpkgConfig, notFoundEv], ?_⟩
        intro chs pns hch hpn
        constructor
        · simp [mergerScript, mergerMain, readVcpkgConfig, hch, hpn]
        · simp [mergerScript, mergerMain, readVcpkgConfig, hch, hpn, trailerEvs]
      | parsed m =>
        rcases hc : lookupKvs m "configuration" with _ | c
        · refine ⟨by simp [readVcpkgConfig, hc], by simp [readVcpkgConfig, hc, notFoundEv], ?_⟩
          intro chs pns hch hpn
          constructor
          · simp [mergerScript, mergerMain, readVcpkgConfig, hc, hch, hpn]
          · simp [mergerScript, mergerMain, readVcpkgConfig, hc, hch, hpn, trailerEvs]
        · simp [embeddedAvailable, hc] at hemb
  · intro hm
    cases hm
    cases cj <;> simp [readVcpkgConfig, vjParseFailEv]

/-- Witness for C1: a separate-format configuration with one prior
entry; one run appends one entry after it, a second run appends a second
copy. -/
theorem c1_merge_appends_exactly_one_entry_witness :
    (mergerScript (some "abc") (some "pkg")
      ⟨FileState.absent, FileState.parsed [("registries", Json.arr [Json.str "old"])]⟩).code = 0 ∧
    cfgInFS (mergerScript (some "abc") (some "pkg")
        ⟨FileState.absent, FileState.parsed [("registries", Json.arr [Json.str "old"])]⟩).fs
      CfgSrc.separate =
      some (Json.obj [("registries", Json.arr [Json.str "old", mkRegistry "abc" "pkg"])]) ∧
    cfgInFS (mergerScript (some "abc") (some "pkg")
        (mergerScript (some "abc") (some "pkg")
          ⟨FileState.absent, FileState.parsed [("registries", Json.arr [Json.str "old"])]⟩).fs).fs
      CfgSrc.separate =
      some (Json.obj [("registries",
        Json.arr [Json.str "old", mkRegistry "abc" "pkg", mkRegistry "abc" "pkg"])]) :=
  c1_merge_appends_exactly_one_entry "abc" "pkg"
    ⟨FileState.absent, FileState.parsed [("registries", Json.arr [Json.str "old"])]⟩
    [("registries", Json.arr [Json.str "old"])] CfgSrc.separate [Json.str "old"]
    rfl rfl rfl (Or.inr rfl)

/-- Witness for C10: an embedded configuration with an extra key; the
extra configuration key and the manifest name key read back unchanged
after the merge. -/
theorem c10_only_registries_key_changes_witness :
    ((cfgInFS (mergerScript (some "abc") (some "pkg")
        ⟨FileState.parsed [("name", Json.str "lib"),
          ("configuration", Json.obj [("registries", Json.arr []), ("extra", Json.str "keep")])],
          FileState.absent⟩).fs
      (CfgSrc.embeddedIn [("name", Json.str "lib"),
        ("configuration", Json.obj [("registries", Json.arr []), ("extra", Json.str "keep")])])).bind
        (fun c => jGet c "extra")) = some (Json.str "keep") ∧
    vjLookup (mergerScript (some "abc") (some "pkg")
        ⟨FileState.parsed [("name", Json.str "lib"),
          ("configuration", Json.obj [("registries", Json.arr []), ("extra", Json.str "keep")])],
          FileState.absent⟩).fs "name" = some (Json.str "lib") := by
  obtain ⟨h1, h2⟩ := c10_only_registries_key_changes "abc" "pkg"
    ⟨FileState.parsed [("name", Json.str "lib"),
      ("configuration", Json.obj [("registries", Json.arr []), ("extra", Json.str "keep")])],
      FileState.absent⟩
    [("registries", Json.arr []), ("extra", Json.str "keep")]
    (CfgSrc.embeddedIn [("name", Json.str "lib"),
      ("configuration", Json.obj [("registries", Json.arr []), ("extra", Json.str "keep")])])
    [] rfl rfl rfl (Or.inr rfl)
  exact ⟨h1 "extra" (by decide),
    h2 [("name", Json.str "lib"),
      ("configuration", Json.obj [("registries", Json.arr []), ("extra", Json.str "keep")])]
      rfl "name" (by decide)⟩

/-- Witness for C8: an embedded read rewrites only the manifest file and
leaves the coexisting separate configuration file untouched. -/
theorem c8_writeback_targets_only_read_file_witness :
    (mergerScript (some "h") (some "p")
      ⟨FileState.parsed [("configuration", Json.obj [])],
        FileState.parsed [("x", Json.null)]⟩).fs.cj = FileState.parsed [("x", Json.null)] ∧
    (mergerScript (some "h") (some "p")
      ⟨FileState.parsed [("configuration", Json.obj [])],
        FileState.parsed [("x", Json.null)]⟩).fs.vj =
      FileState.parsed [("configuration",
        Json.obj [("registries", Json.arr [mkRegistry "h" "p"])])] :=
  (c8_writeback_targets_only_read_file "h" "p"
    ⟨FileState.parsed [("configuration", Json.obj [])], FileState.parsed [("x", Json.null)]⟩
    [] (CfgSrc.embeddedIn [("configuration", Json.obj [])]) []
    rfl rfl rfl (Or.inl ⟨rfl, rfl⟩)).1
    [("configuration", Json.obj [])] rfl

/-- Witness for C2: with a malformed manifest and no separate file, the
parse failure is logged, discovery continues, finds nothing, logs the
`NotFound` line, and the run exits 1. -/
theorem c2_discovery_priority_and_notfound_witness :
    (readVcpkgConfig ⟨FileState.malformed, FileState.absent⟩).2 = none ∧
    notFoundEv ∈ (readVcpkgConfig ⟨FileState.malformed, FileState.absent⟩).1 ∧
    (mergerScript (some "h") (some "p") ⟨FileState.malformed, FileState.absent⟩).code = 1 ∧
    notFoundEv ∈ (mergerScript (some "h") (some "p") ⟨FileState.malformed, FileState.absent⟩).evs ∧
    vjParseFailEv ∈ (readVcpkgConfig ⟨FileState.malformed, FileState.absent⟩).1 := by
  obtain ⟨-, -, h3, h4⟩ :=
    c2_discovery_priority_and_notfound ⟨FileState.malformed, FileState.absent⟩
  obtain ⟨ha, hb, hc⟩ := h3 rfl rfl
  obtain ⟨hd, he⟩ := hc "h" "p" rfl rfl
  exact ⟨ha, hb, hd, he, h4 rfl⟩

theorem pySplitCharList_ne_nil (sep : Char) (l : List Char) : pySplitCharList sep l ≠ [] := by
  cases l with
  | nil => simp [pySplitCharList]
  | cons c rest =>
    simp only [pySplitCharList]
    rcases h : pySplitCharList sep rest with _ | ⟨hd, tl⟩
    · simp
    · by_cases hc : c = sep <;> simp [hc]

theorem pySplitCharList_length (sep : Char) (l : List Char) :
    (pySplitCharList sep l).length = l.count sep + 1 := by
  induction l with
  | nil => simp [pySplitCharList]
  | cons c rest ih =>
    simp only [pySplitCharList]
    rcases h : pySplitCharList sep rest with _ | ⟨hd, tl⟩
    · exact absurd h (pySplitCharList_ne_nil sep rest)
    · rw [h] at ih
      simp only [List.length_cons] at ih
      by_cases hc : c = sep
      · subst hc
        simp [List.count_cons]
        omega
      · simp [List.count_cons, hc]
        omega

theorem genScript_spec (rns tvs h ghs o r : String) (kvs : List (String × Json))
    (nameV : Json) (ds : List Json)
    (hrn : rns.isEmpty = false) (htv : tvs.isEmpty = false)
    (hh : h.isEmpty = false) (hgh : ghs.isEmpty = false)
    (hsplit : pySplitChar '/' ghs = [o, r])
    (hname : lookupKvs kvs "name" = some nameV)
    (hdeps : pyIter (getKvsD kvs "dependencies" (Json.arr [])) = some ds) :
    (genScript (some rns) (some tvs) (some h) (some ghs) (FileState.parsed kvs)).code = 0 ∧
    (genScript (some rns) (some tvs) (some h) (some ghs) (FileState.parsed kvs)).writes =
      some ⟨"registry/ports/" ++ pyStr nameV, portfileText o r h (pyStr nameV),
        buildVcpkgData nameV tvs ghs kvs ds⟩ := by
  simp [genScript, genMain, hrn, htv, hh, hgh, genAfterEnv, hsplit, hname, hdeps]

/-- C9: the generator splits the repository identifier on `/` (the split
yields one part more than the number of separators, so exactly one
separator means exactly two parts); with exactly one separator and a
readable source manifest the two components are substituted into the
rendered recipe, and with any other number of separators the unpacking
fault reaches the outermost handler, the run exits 1, and nothing is
written. -/
theorem c9_owner_repo_split_precondition (rns tvs h ghs : String)
    (hrn : rns.isEmpty = false) (htv : tvs.isEmpty = false)
    (hh : h.isEmpty = false) (hgh : ghs.isEmpty = false) :
    (pySplitChar '/' ghs).length = ghs.toList.count '/' + 1 ∧
    (∀ o r kvs nameV ds, pySplitChar '/' ghs = [o, r] →
      lookupKvs kvs "name" = some nameV →
      pyIter (getKvsD kvs "dependencies" (Json.arr [])) = some ds →
      (genScript (some rns) (some tvs) (some h) (some ghs) (FileState.parsed kvs)).code = 0 ∧
      (genScript (some rns) (some tvs) (some h) (some ghs) (FileState.parsed kvs)).writes =
        some ⟨"registry/ports/" ++ pyStr nameV, portfileText o r h (pyStr nameV),
          buildVcpkgData nameV tvs ghs kvs ds⟩) ∧
    ((pySplitChar '/' ghs).length ≠ 2 → ∀ src : FileState,
      (genScript (some rns) (some tvs) (some h) (some ghs) src).code = 1 ∧
      (genScript (some rns) (some tvs) (some h) (some ghs) src).writes = none) := by
  refine ⟨pySplitCharList_length '/' ghs.toList, ?_, ?_⟩
  · intro o r kvs nameV ds hsplit hname hdeps
    exact genScript_spec rns tvs h ghs o r kvs nameV ds hrn htv hh hgh hsplit hname hdeps
  · intro hlen src
    rcases hs : pySplitChar '/' ghs with _ | ⟨a, _ | ⟨b, _ | ⟨c, rest⟩⟩⟩
    · constructor <;> simp [genScript, genMain, hrn, htv, hh, hgh, genAfterEnv, hs]
    · constructor <;> simp [genScript, genMain, hrn, htv, hh, hgh, genAfterEnv, hs]
    · rw [hs] at hlen
      simp at hlen
    · constructor <;> simp [genScript, genMain, hrn, htv, hh, hgh, genAfterEnv, hs]

/-- Witness for C9: a two-part identifier generates, a separator-free
identifier exits 1 without writing. -/
theorem c9_owner_repo_split_precondition_witness :
    (genScript (some "widget") (some "1.0") (some "abc") (some "acme/widget")
      (FileState.parsed [("name", Json.str "widget")])).code = 0 ∧
    (genScript (some "widget") (some "1.0") (some "abc") (some "acmewidget")
      (FileState.parsed [("name", Json.str "widget")])).code = 1 ∧
    (genScript (some "widget") (some "1.0") (some "abc") (some "acmewidget")
      (FileState.parsed [("name", Json.str "widget")])).writes = none := by
  obtain ⟨-, h2, -⟩ :=
    c9_owner_repo_split_precondition "widget" "1.0" "abc" "acme/widget" rfl rfl rfl rfl
  obtain ⟨hc, -⟩ :=
    h2 "acme" "widget" [("name", Json.str "widget")] (Json.str "widget") [] rfl rfl rfl
  obtain ⟨-, -, h3⟩ :=
    c9_owner_repo_split_precondition "widget" "1.0" "abc" "acmewidget" rfl rfl rfl rfl
  obtain ⟨hd, he⟩ := h3 (by decide) (FileState.parsed [("name", Json.str "widget")])
  exact ⟨hc, hd, he⟩

/-- C7: the written dependency list starts with the two fixed bootstrap
identifiers followed by the source dependencies in original order,
dropping exactly the string dependencies with the case-sensitive prefix
`vcpkg-cmake` (predicate `depIsVcpkgCmake`). -/
theorem c7_dependency_list_merge (rns tvs h ghs o r : String)
    (kvs : List (String × Json)) (nameV : Json) (ds : List Json)
    (hrn : rns.isEmpty = false) (htv : tvs.isEmpty = false)
    (hh : h.isEmpty = false) (hgh : ghs.isEmpty = false)
    (hsplit : pySplitChar '/' ghs = [o, r])
    (hname : lookupKvs kvs "name" = some nameV)
    (hdeps : lookupKvs kvs "dependencies" = some (Json.arr ds)) :
    (genScript (some rns) (some tvs) (some h) (some ghs) (FileState.parsed kvs)).code = 0 ∧
    ((genScript (some rns) (some tvs) (some h) (some ghs) (FileState.parsed kvs)).writes.bind
      (fun g => jGet g.manifest "dependencies")) =
      some (Json.arr (Json.str "vcpkg-cmake" :: Json.str "vcpkg-cmake-config" ::
        ds.filter (fun d => !depIsVcpkgCmake d))) := by
  have hdi : pyIter (getKvsD kvs "dependencies" (Json.arr [])) = some ds := by
    simp [getKvsD, hdeps, pyIter]
  obtain ⟨hc, hw⟩ := genScript_spec rns tvs h ghs o r kvs nameV ds hrn htv hh hgh hsplit hname hdi
  refine ⟨hc, ?_⟩
  rw [hw]
  rfl

/-- Witness for C7 at the example of the spec: source dependencies
`["vcpkg-cmake-fix", "zlib"]` yield the two bootstrap identifiers
followed by `zlib` only. -/
theorem c7_dependency_list_merge_witness :
    ((genScript (some "widget") (some "1.0") (some "abc") (some "acme/widget")
      (FileState.parsed [("name", Json.str "widget"),
        ("dependencies", Json.arr [Json.str "vcpkg-cmake-fix", Json.str "zlib"])])).writes.bind
      (fun g => jGet g.manifest "dependencies")) =
      some (Json.arr [Json.str "vcpkg-cmake", Json.str "vcpkg-cmake-config", Json.str "zlib"]) :=
  (c7_dependency_list_merge "widget" "1.0" "abc" "acme/widget" "acme" "widget"
    [("name", Json.str "widget"),
      ("dependencies", Json.arr [Json.str "vcpkg-cmake-fix", Json.str "zlib"])]
    (Json.str "widget") [Json.str "vcpkg-cmake-fix", Json.str "zlib"]
    rfl rfl rfl rfl rfl rfl rfl).2

/-- Counterexample to C3 as stated: for the tag `vv1.2.3` the code
(`lstrip`) writes version `1.2.3`, while one-occurrence stripping as the
claim words it gives `v1.2.3`. -/
theorem c3_counterexample_double_v_tag :
    writesVersion (genScript (some "widget") (some "vv1.2.3") (some "abc") (some "acme/widget")
      (FileState.parsed [("name", Json.str "widget")])) = some (Json.str "1.2.3") ∧
    specStripOneV "vv1.2.3" = "v1.2.3" ∧
    writesVersion (genScript (some "widget") (some "vv1.2.3") (some "abc") (some "acme/widget")
      (FileState.parsed [("name", Json.str "widget")])) ≠
      some (Json.str (specStripOneV "vv1.2.3")) := by
  refine ⟨rfl, rfl, ?_⟩
  intro hc
  rw [show writesVersion (genScript (some "widget") (some "vv1.2.3") (some "abc")
    (some "acme/widget") (FileState.parsed [("name", Json.str "widget")])) =
    some (Json.str "1.2.3") from rfl] at hc
  injection hc with h1
  injection h1 with h2
  exact absurd h2 (by decide)

/-- C3 amended: the version field of the written manifest equals the tag
with every leading `v` character removed (Python `lstrip`), which equals
one-occurrence stripping whenever the tag does not start with `vv`. -/
theorem c3_version_strips_all_leading_v (rns tvs h ghs o r : String)
    (kvs : List (String × Json)) (nameV : Json) (ds : List Json)
    (hrn : rns.isEmpty = false) (htv : tvs.isEmpty = false)
    (hh : h.isEmpty = false) (hgh : ghs.isEmpty = false)
    (hsplit : pySplitChar '/' ghs = [o, r])
    (hname : lookupKvs kvs "name" = some nameV)
    (hdeps : pyIter (getKvsD kvs "dependencies" (Json.arr [])) = some ds) :
    writesVersion (genScript (some rns) (some tvs) (some h) (some ghs)
      (FileState.parsed kvs)) = some (Json.str (pyLstripV tvs)) := by
  obtain ⟨-, hw⟩ := genScript_spec rns tvs h ghs o r kvs nameV ds hrn htv hh hgh hsplit hname hdeps
  rw [writesVersion, hw]
  rfl

/-- Witness for the amended C3 at the double-v tag. -/
theorem c3_version_strips_all_leading_v_witness :
    writesVersion (genScript (some "widget") (some "vv1.2.3") (some "abc") (some "acme/widget")
      (FileState.parsed [("name", Json.str "widget")])) = some (Json.str "1.2.3") :=
  c3_version_strips_all_leading_v "widget" "vv1.2.3" "abc" "acme/widget" "acme" "widget"
    [("name", Json.str "widget")] (Json.str "widget") [] rfl rfl rfl rfl rfl rfl rfl

/-- C5 at the failing input (`HASH` unset, all other inputs valid): the
run exits 1 before any file write, but the debug log `hash_value[:16]`
raises `TypeError` before the validation block, so the promised log of
which inputs are unset never happens and the generic handler logs an
unexpected `TypeError` instead. -/
theorem c5_unset_hash_skips_missing_input_log :
    (genScript (some "widget") (some "v1.0.0") none (some "acme/widget")
      (FileState.parsed [("name", Json.str "widget")])).code = 1 ∧
    (genScript (some "widget") (some "v1.0.0") none (some "acme/widget")
      (FileState.parsed [("name", Json.str "widget")])).writes = none ∧
    logE "Missing required environment variables" ∉
      (genScript (some "widget") (some "v1.0.0") none (some "acme/widget")
        (FileState.parsed [("name", Json.str "widget")])).evs ∧
    logE ("Unexpected error in main(): " ++ noneSubscriptMsg) ∈
      (genScript (some "widget") (some "v1.0.0") none (some "acme/widget")
        (FileState.parsed [("name", Json.str "widget")])).evs :=
  ⟨rfl, rfl, by decide, by decide⟩

/-- Counterexample to C6 as stated: a manifest containing exactly one of
the version fields, with the empty string as value, makes the extractor
exit 1 with nothing on standard output, not exit 0 emitting the value. -/
theorem c6_counterexample_empty_version :
    (extractVersionMain (FileState.parsed [("version", Json.str "")])).code = 1 ∧
    outEvsOf (extractVersionMain (FileState.parsed [("version", Json.str "")])).evs = [] :=
  ⟨rfl, rfl⟩

/-- C6 amended: the extractor resolves the version under the first
present field in priority order `version`, `version-string`,
`version-semver`; when that value is truthy it exits 0 and writes
exactly that value to standard output with no trailing newline, and when
no field is present, or the first present value is falsy (such as the
empty string), it exits 1 with nothing on standard output. -/
theorem c6_version_lookup_priority_and_output (kvs : List (String × Json)) :
    (∀ v, lookupKvs kvs "version" = some v → lookupFirst versionFields kvs = some v) ∧
    (lookupKvs kvs "version" = none → ∀ v, lookupKvs kvs "version-string" = some v →
      lookupFirst versionFields kvs = some v) ∧
    (lookupKvs kvs "version" = none → lookupKvs kvs "version-string" = none →
      lookupFirst versionFields kvs = lookupKvs kvs "version-semver") ∧
    (∀ v, lookupFirst versionFields kvs = some v → pyTruthy v = true →
      extractVersionMain (FileState.parsed kvs) = ⟨0, [⟨Sink.out, pyStr v⟩]⟩ ∧
      outTextOf (extractVersionMain (FileState.parsed kvs)).evs = pyStr v) ∧
    (lookupFirst versionFields kvs = none →
      extractVersionMain (FileState.parsed kvs) =
        ⟨1, [pErr "Error: No version found in vcpkg.json"]⟩) ∧
    (∀ v, lookupFirst versionFields kvs = some v → pyTruthy v = false →
      extractVersionMain (FileState.parsed kvs) =
        ⟨1, [pErr "Error: No version found in vcpkg.json"]⟩) := by
  refine ⟨?_, ?_, ?_, ?_, ?_, ?_⟩
  · intro v h
    simp [lookupFirst, versionFields, h]
  · intro h0 v h1
    simp [lookupFirst, versionFields, h0, h1]
  · intro h0 h1
    rcases h2 : lookupKvs kvs "version-semver" with _ | v <;>
      simp [lookupFirst, versionFields, h0, h1, h2]
  · intro v h ht
    refine ⟨by simp [extractVersionMain, h, ht], ?_⟩
    simp [extractVersionMain, h, ht, outTextOf, outEvsOf, String.join]
  · intro h
    simp [extractVersionMain, h]
  · intro v h hf
    simp [extractVersionMain, h, hf]

/-- Witness for the amended C6: the priority fallthrough to
`version-string` with a truthy value. -/
theorem c6_version_lookup_priority_and_output_witness :
    extractVersionMain (FileState.parsed [("version-string", Json.str "2.0")]) =
      ⟨0, [⟨Sink.out, "2.0"⟩]⟩ ∧
    outTextOf (extractVersionMain
      (FileState.parsed [("version-string", Json.str "2.0")])).evs = "2.0" := by
  obtain ⟨-, -, -, h4, -, -⟩ :=
    c6_version_lookup_priority_and_output [("version-string", Json.str "2.0")]
  exact h4 (Json.str "2.0") rfl rfl

theorem mergerMain_starts_with_info (ch pn : Option String) (fs : MFS) :
    ∃ t, (mergerMain ch pn fs).evs =
      logI ("Merging registry with commit hash: " ++ fmtOpt ch) :: t := by
  simp only [mergerMain, mergerWrite]
  repeat' split
  all_goals exact ⟨_, rfl⟩

theorem mergerScript_starts_with_info (ch pn : Option String) (fs : MFS) :
    ∃ t, (mergerScript ch pn fs).evs =
      logI ("Merging registry with commit hash: " ++ fmtOpt ch) :: t := by
  obtain ⟨t, ht⟩ := mergerMain_starts_with_info ch pn fs
  exact ⟨t ++ trailerEvs (mergerMain ch pn fs).code, by simp [mergerScript, ht]⟩

theorem genMain_starts_with_info (rn tv hv gh : Option String) (src : FileState) :
    ∃ t, (genMain rn tv hv gh src).evs = logI "Starting port file generation..." :: t := by
  simp only [genMain, genAfterEnv]
  repeat' split
  all_goals exact ⟨_, rfl⟩

theorem genScript_starts_with_info (rn tv hv gh : Option String) (src : FileState) :
    ∃ t, (genScript rn tv hv gh src).evs = logI "Starting port file generation..." :: t := by
  obtain ⟨t, ht⟩ := genMain_starts_with_info rn tv hv gh src
  exact ⟨t ++ trailerEvs (genMain rn tv hv gh src).code, by simp [genScript, ht]⟩

theorem getNameScript_streams (src : FileState) :
    errEvsOf (getNameScript src).evs = [] ∧
    ((getNameScript src).code = 0 → ∃ v, (getNameScript src).evs = [pOut (pyStr v)]) := by
  cases src with
  | absent => simp [getNameScript, getVcpkgName, errEvsOf, logE, pOut]
  | malformed => simp [getNameScript, getVcpkgName, errEvsOf, logE, pOut]
  | parsed kvs =>
    rcases hn : lookupKvs kvs "name" with _ | v
    · simp [getNameScript, getVcpkgName, hn, errEvsOf, logE, pOut]
    · by_cases ht : pyTruthy v = true
      · refine ⟨by simp [getNameScript, getVcpkgName, hn, ht, errEvsOf, pOut], ?_⟩
        intro h0
        exact ⟨v, by simp [getNameScript, getVcpkgName, hn, ht]⟩
      · simp only [Bool.not_eq_true] at ht
        simp [getNameScript, getVcpkgName, hn, ht, errEvsOf]

/-- Counterexample to C4 as stated: a Registry Merger run writes a
diagnostic `[INFO]` line to standard output, while the claim says the
merger writes nothing to standard output. -/
theorem c4_counterexample_merger_writes_stdout :
    outEvsOf (mergerScript (some "aaa") (some "pkg")
      ⟨FileState.absent, FileState.parsed []⟩).evs ≠ [] := by
  obtain ⟨t, ht⟩ := mergerScript_starts_with_info (some "aaa") (some "pkg")
    ⟨FileState.absent, FileState.parsed []⟩
  simp [outEvsOf, ht, logI, pOut]

/-- C4 corrected: the Version Extractor separates streams (diagnostics
to the error stream, at most the bare version value on standard output),
but the Port File Generator and the Registry Merger log through plain
`print`, so every run of either begins with an `[INFO]` diagnostic on
standard output; the name-extraction mode never writes to standard error
and on success writes only the package name to standard output. -/
theorem c4_stream_separation_amended :
    (∀ fsE : FileState,
      ((extractVersionMain fsE).code = 1 → outEvsOf (extractVersionMain fsE).evs = []) ∧
      ((extractVersionMain fsE).code = 0 →
        ∃ v, (extractVersionMain fsE).evs = [⟨Sink.out, pyStr v⟩])) ∧
    (∀ ch pn fs, ∃ t, (mergerScript ch pn fs).evs =
      logI ("Merging registry with commit hash: " ++ fmtOpt ch) :: t) ∧
    (∀ rn tv hv gh srcg, ∃ t, (genScript rn tv hv gh srcg).evs =
      logI "Starting port file generation..." :: t) ∧
    (∀ srcn, errEvsOf (getNameScript srcn).evs = [] ∧
      ((getNameScript srcn).code = 0 → ∃ v, (getNameScript srcn).evs = [pOut (pyStr v)])) := by
  refine ⟨?_, mergerScript_starts_with_info, genScript_starts_with_info, getNameScript_streams⟩
  intro fsE
  cases fsE with
  | absent => simp [extractVersionMain, outEvsOf, pErr]
  | malformed => simp [extractVersionMain, outEvsOf, pErr]
  | parsed kvs =>
    rcases hv : lookupFirst versionFields kvs with _ | v
    · simp [extractVersionMain, hv, outEvsOf, pErr]
    · by_cases ht : pyTruthy v = true
      · refine ⟨by simp [extractVersionMain, hv, ht], ?_⟩
        intro h0
        exact ⟨v, by simp [extractVersionMain, hv, ht]⟩
      · simp only [Bool.not_eq_true] at ht
        simp [extractVersionMain, hv, ht, outEvsOf, pErr]

/-- Witness for the corrected C4 at concrete runs of all four entry
points. -/
theorem c4_stream_separation_amended_witness :
    outEvsOf (extractVersionMain FileState.absent).evs = [] ∧
    (mergerScript (some "h") (some "p") ⟨FileState.absent, FileState.absent⟩).evs.head? =
      some (logI "Merging registry with commit hash: h") ∧
    (genScript (some "a") (some "b") (some "c") (some "d/e") FileState.absent).evs.head? =
      some (logI "Starting port file generation...") ∧
    errEvsOf (getNameScript FileState.absent).evs = [] := by
  obtain ⟨h1, h2, h3, h4⟩ := c4_stream_separation_amended
  obtain ⟨t2, ht2⟩ := h2 (some "h") (some "p") ⟨FileState.absent, FileState.absent⟩
  obtain ⟨t3, ht3⟩ := h3 (some "a") (some "b") (some "c") (some "d/e") FileState.absent
  exact ⟨(h1 FileState.absent).1 rfl, by rw [ht2]; rfl, by rw [ht3]; rfl,
    (h4 FileState.absent).1⟩

end TemplateLib
